import Mathlib

/-!
Verification development for the gen-mr interactive PR/MR workflow
(src/workflow.mjs, src/github-utils.mjs), shallowly embedded in Lean.

The interactive engine is modelled as a pure step function over an explicit
state (the live draft, the frozen original snapshot, the hasChanges flag).
External collaborators (editor bridge, content generator, repository
provider) are modelled by their outcomes, supplied as inputs; provider
mutations are collected into an explicit list of calls.
-/

namespace GenMr

/-- A title/description pair: the mutable working content of the loop
(`currentResult` in handleUserInteraction). -/
structure Draft where
  title : String
  description : String
deriving DecidableEq, Repr

/-- An already-open remote pull request, as returned by
findExistingPullRequest (fields actually consumed by workflow.mjs). -/
structure ExistingPR where
  number : Nat
  prTitle : String
  body : Option String
  htmlUrl : String
  prState : String
deriving DecidableEq, Repr

/-- JavaScript `a || b` on an optional string: `undefined`/`null` and the
empty string are falsy. -/
def jsOr (a : Option String) (b : String) : String :=
  match a with
  | none => b
  | some s => if s = "" then b else s

/-- JavaScript truthiness of an optional string value. -/
def jsTruthy (a : Option String) : Bool :=
  match a with
  | none => false
  | some s => !(s == "")

/-- Dropping leading and trailing whitespace from a character list:
the semantics of JavaScript String.prototype.trim on the ASCII whitespace
relevant here. -/
def jsTrimList (l : List Char) : List Char :=
  ((l.dropWhile Char.isWhitespace).reverse.dropWhile Char.isWhitespace).reverse

/-- JavaScript `s.trim()`. -/
def jsTrim (s : String) : String := ⟨jsTrimList s.data⟩

/-- Worker for splitting on newline characters. -/
def splitLinesAux : List Char → List Char → List String
  | [], acc => [⟨acc.reverse⟩]
  | c :: cs, acc =>
      if c = '\n' then (⟨acc.reverse⟩ : String) :: splitLinesAux cs []
      else splitLinesAux cs (c :: acc)

/-- JavaScript `s.split("\n")`. -/
def jsSplitLines (s : String) : List String := splitLinesAux s.data []

/-- JavaScript `lines.join("\n")`. -/
def jsJoinLines : List String → String
  | [] => ""
  | [l] => l
  | l :: ls => l ++ "\n" ++ jsJoinLines ls

/-- JavaScript `s.startsWith(pre)`. -/
def jsStartsWith (s pre : String) : Bool := List.isPrefixOf pre.data s.data

/-- The single HTTP mutation issued by createOrUpdatePullRequest:
either a PATCH of an existing PR or a POST creating a new one. -/
inductive ProviderCall where
  | patch (url : String) (title : String) (body : String)
  | post (url : String) (head : String) (base : String) (title : String) (body : String)
deriving DecidableEq, Repr

/-- Argument object of createOrUpdatePullRequest (github-utils.mjs). -/
structure SaveRequestArgs where
  githubRepo : String
  sourceBranch : String
  targetBranch : String
  title : String
  description : String
  existingPR : Option ExistingPR
deriving DecidableEq, Repr

/-- createOrUpdatePullRequest (github-utils.mjs lines 109-151): PATCH
`/repos/{repo}/pulls/{number}` with title/body when an existing PR is
supplied, otherwise POST `/repos/{repo}/pulls` with head/base/title/body. -/
def createOrUpdatePullRequest (args : SaveRequestArgs) : ProviderCall :=
  match args.existingPR with
  | some pr =>
      ProviderCall.patch
        ("https://api.github.com/repos/" ++ args.githubRepo ++ "/pulls/" ++ toString pr.number)
        args.title args.description
  | none =>
      ProviderCall.post ("https://api.github.com/repos/" ++ args.githubRepo ++ "/pulls")
        args.sourceBranch args.targetBranch args.title args.description

/-- The success message printed by createOrUpdatePullRequest, ending in the
remote URL (`res.html_url`) returned by the provider. -/
def saveSuccessMessage (existingPR : Option ExistingPR) (resHtmlUrl : String) : String :=
  (match existingPR with
   | some _ => "✅ Pull request updated: "
   | none => "✅ Pull request created: ") ++ resHtmlUrl

/-- Comment filtering in regenerateMergeRequest (workflow.mjs lines 56-60):
split the editor buffer on newlines, drop every line whose trimmed form
starts with '#', rejoin and trim the surrounding blank padding. -/
def filterInstructions (userInput : String) : String :=
  jsTrim (jsJoinLines
    ((jsSplitLines userInput).filter (fun line => !(jsStartsWith (jsTrim line) "#"))))

/-- The generator invocation assembled by regenerateMergeRequest:
free-text additional instructions plus the previous title/description. -/
structure GenCall where
  additionalInstructions : String
  previousResult : Draft
deriving DecidableEq, Repr

/-- regenerateMergeRequest (workflow.mjs lines 24-80): open the editor on the
commented template, filter comment lines out of the buffer, then call the
generator with the instructions and the previous result.  The first
component is the thrown-or-returned outcome; the second records the
generator call when one was made. -/
def regenerateMergeRequest (previous : Draft) (editorOutcome : Except String String)
    (genOutcome : Except String Draft) : Except String Draft × Option GenCall :=
  match editorOutcome with
  | Except.error e => (Except.error e, none)
  | Except.ok userInput =>
      let call : GenCall := ⟨filterInstructions userInput, previous⟩
      match genOutcome with
      | Except.error e => (Except.error e, some call)
      | Except.ok d => (Except.ok d, some call)

/-- State of the interactive loop in handleUserInteraction:
the live draft, the frozen snapshot taken at entry, and hasChanges. -/
structure LoopState where
  currentResult : Draft
  originalResult : Draft
  hasChanges : Bool
deriving DecidableEq, Repr

/-- Loop state at entry (workflow.mjs lines 102-104): live draft and
snapshot both copy the initial generation result; hasChanges is false. -/
def initState (initialResult : Draft) : LoopState :=
  { currentResult := initialResult, originalResult := initialResult, hasChanges := false }

/-- Outcomes of the collaborators consulted during one loop iteration. -/
structure IterEnv where
  editorCommand : Option String
  editorResult : Except String Draft
  manualTitle : String
  manualDescription : String
  regenEditor : Except String String
  regenGen : Except String Draft
deriving Repr

/-- editManually (workflow.mjs lines 160-173): an empty answer keeps the
current field (JavaScript `title || currentResult.title`); hasChanges is
set unconditionally. -/
def editManually (s : LoopState) (env : IterEnv) : LoopState :=
  { s with
    currentResult :=
      { title := if env.manualTitle = "" then s.currentResult.title else env.manualTitle
        description :=
          if env.manualDescription = "" then s.currentResult.description
          else env.manualDescription }
    hasChanges := true }

/-- editWithEditor (workflow.mjs lines 132-158): with a configured editor,
a successful edit replaces the draft and sets hasChanges; an editor error
falls back to manual entry; with no editor, manual entry is used directly. -/
def editWithEditor (s : LoopState) (env : IterEnv) : LoopState :=
  if jsTruthy env.editorCommand then
    match env.editorResult with
    | Except.ok edited => { s with currentResult := edited, hasChanges := true }
    | Except.error _ => editManually s env
  else editManually s env

/-- regenerateWithInstructions (workflow.mjs lines 175-201), returning the
new state together with the console messages of the branch taken: on
success the draft is replaced and hasChanges set; on any failure the state
is returned untouched and the loop continues. -/
def regenerateWithInstructionsRun (s : LoopState) (env : IterEnv) :
    LoopState × List String :=
  match (regenerateMergeRequest s.currentResult env.regenEditor env.regenGen).1 with
  | Except.ok d =>
      ({ s with currentResult := d, hasChanges := true },
       ["🔄 Regenerated Pull Request"])
  | Except.error e =>
      (s, ["❌ Failed to regenerate: " ++ e, "💡 Continuing with current content..."])

/-- State component of regenerateWithInstructions. -/
def regenerateWithInstructions (s : LoopState) (env : IterEnv) : LoopState :=
  (regenerateWithInstructionsRun s env).1

/-- rollbackToOriginal (workflow.mjs lines 203-208): restore the snapshot
and clear hasChanges. -/
def rollbackToOriginal (s : LoopState) : LoopState :=
  { s with currentResult := s.originalResult, hasChanges := false }

/-- Numbered menu lines printed by showMenu (workflow.mjs lines 106-130):
options 4/5 are rollback and cancel when hasChanges, else 4 is cancel. -/
def menuOptionLines (hasChanges : Bool) : List String :=
  ["1. 💾 Save/Update this merge request",
   "2. ✏️  Edit title and description",
   "3. 🔄 Regenerate with additional instructions"] ++
  (if hasChanges then
    ["4. ↩️  Rollback to original version", "5. ❌ Cancel (exit without saving)"]
   else
    ["4. ❌ Cancel (exit without saving)"])

/-- The upper menu number quoted in prompts and error messages. -/
def maxOption (hasChanges : Bool) : String := if hasChanges then "5" else "4"

/-- Error text printed for an unrecognized menu choice. -/
def invalidOptionMessage (hasChanges : Bool) : String :=
  "❌ Invalid option. Please choose 1-" ++ maxOption hasChanges ++ "."

/-- Result of one iteration of the main interaction loop. -/
inductive StepResult where
  | save (s : LoopState)
  | cancel (s : LoopState)
  | next (s : LoopState)
  | invalid (s : LoopState) (msg : String)
deriving DecidableEq, Repr

/-- One iteration of the switch in handleUserInteraction (workflow.mjs
lines 235-272).  The raw answer is trimmed (showMenu resolves
`choice.trim()`).  "1" saves and terminates; "2" edits; "3" regenerates;
"4" rolls back when hasChanges else cancels; "5" cancels when hasChanges
else is invalid; anything else is invalid and re-prompts. -/
def loopStep (s : LoopState) (rawChoice : String) (env : IterEnv) : StepResult :=
  let choice := jsTrim rawChoice
  if choice = "1" then StepResult.save s
  else if choice = "2" then StepResult.next (editWithEditor s env)
  else if choice = "3" then StepResult.next (regenerateWithInstructions s env)
  else if choice = "4" then
    if s.hasChanges then StepResult.next (rollbackToOriginal s)
    else StepResult.cancel s
  else if choice = "5" then
    if s.hasChanges then StepResult.cancel s
    else StepResult.invalid s "❌ Invalid option. Please choose 1-4."
  else StepResult.invalid s (invalidOptionMessage s.hasChanges)

/-- Decision taken by the existing-request gate menu on a raw answer
(workflow.mjs lines 343-390): "1" regenerates fresh, "2" regenerates the
existing PR with instructions, and case "3" falls through to the default,
so every other answer takes the cancel branch. -/
inductive GateDecision where
  | fresh
  | seeded
  | cancel
deriving DecidableEq, Repr

/-- The switch on `choice.trim()` at the gate menu. -/
def gateDecision (rawChoice : String) : GateDecision :=
  let c := jsTrim rawChoice
  if c = "1" then GateDecision.fresh
  else if c = "2" then GateDecision.seeded
  else GateDecision.cancel

/-- Outcome of the pre-loop phase of executePRWorkflow. -/
inductive GateResult where
  | cancelled
  | fatal (msg : String)
  | proceed (initialResult : Draft) (existingPR : Option ExistingPR)
deriving DecidableEq, Repr

/-- Collaborator outcomes consumed before the interactive loop starts. -/
structure GateEnv where
  existingPR : Option ExistingPR
  gateChoice : String
  freshGen : Except String Draft
  regenEditor : Except String String
  regenGen : Except String Draft
deriving Repr

/-- Pre-loop phase of executePRWorkflow (workflow.mjs lines 308-418).
With no existing PR, fresh generation either yields the initial draft or
throws (generateMergeRequestSafe rethrows, the outer catch exits 1).
With an existing PR, the gate menu dispatches: fresh generation as above;
the seeded path calls regenerateMergeRequest seeded from the existing
PR's title and body — on failure the catch logs and leaves `result`
undefined, so printing `result.title` afterwards throws and the run ends
in the outer catch with exit code 1; any other answer cancels with exit
code 0. -/
def gatePhase (genv : GateEnv) : GateResult :=
  match genv.existingPR with
  | none =>
      match genv.freshGen with
      | Except.ok d => GateResult.proceed d none
      | Except.error e => GateResult.fatal e
  | some pr =>
      match gateDecision genv.gateChoice with
      | GateDecision.fresh =>
          match genv.freshGen with
          | Except.ok d => GateResult.proceed d (some pr)
          | Except.error e => GateResult.fatal e
      | GateDecision.seeded =>
          match (regenerateMergeRequest ⟨pr.prTitle, jsOr pr.body ""⟩
              genv.regenEditor genv.regenGen).1 with
          | Except.ok d => GateResult.proceed d (some pr)
          | Except.error _ =>
              GateResult.fatal "Cannot read properties of undefined (reading 'title')"
      | GateDecision.cancel => GateResult.cancelled

/-- PR configuration handed to handleUserInteraction (workflow.mjs
lines 422-428). -/
structure PrConfig where
  githubRepo : String
  remoteSourceBranch : Option String
  remoteTargetBranch : Option String
  existingPR : Option ExistingPR
deriving Repr

/-- Arguments of the save action (workflow.mjs lines 216-232): the tracked
remote branch names are preferred when present. -/
def mkSaveArgs (cfg : PrConfig) (sourceBranch targetBranch : String) (d : Draft) :
    SaveRequestArgs :=
  { githubRepo := cfg.githubRepo
    sourceBranch := jsOr cfg.remoteSourceBranch sourceBranch
    targetBranch := jsOr cfg.remoteTargetBranch targetBranch
    title := d.title
    description := d.description
    existingPR := cfg.existingPR }

/-- Final outcome of the interaction loop for a given input sequence. -/
inductive LoopOutcome where
  | saved (finalDraft : Draft)
  | cancelled
  | outOfInput (s : LoopState)
deriving DecidableEq, Repr

/-- The main interaction loop (workflow.mjs lines 235-272) run over a list
of (raw answer, collaborator outcomes) pairs, collecting every provider
mutation issued.  Save issues exactly one createOrUpdatePullRequest call
and terminates; cancel terminates with none; all other branches loop. -/
def runLoop (cfg : PrConfig) (sourceBranch targetBranch : String) :
    LoopState → List (String × IterEnv) → LoopOutcome × List ProviderCall
  | s, [] => (LoopOutcome.outOfInput s, [])
  | s, (raw, env) :: rest =>
      match loopStep s raw env with
      | StepResult.save s' =>
          (LoopOutcome.saved s'.currentResult,
           [createOrUpdatePullRequest (mkSaveArgs cfg sourceBranch targetBranch s'.currentResult)])
      | StepResult.cancel _ => (LoopOutcome.cancelled, [])
      | StepResult.next s' => runLoop cfg sourceBranch targetBranch s' rest
      | StepResult.invalid s' _ => runLoop cfg sourceBranch targetBranch s' rest

/-- Outcome of a whole executePRWorkflow run. -/
inductive WorkflowOutcome where
  | cancelledAtGate
  | fatalError (msg : String)
  | loopEnd (r : LoopOutcome)
deriving DecidableEq, Repr

/-- Branch and repository arguments of executePRWorkflow. -/
structure WorkflowArgs where
  sourceBranch : String
  targetBranch : String
  githubRepo : String
  remoteSourceBranch : Option String
  remoteTargetBranch : Option String
deriving Repr

/-- executePRWorkflow (workflow.mjs lines 284-434): the gate phase either
cancels, dies fatally, or yields the initial draft and the existing PR;
the interaction loop then runs from the initial state.  The second
component collects every provider mutation of the run. -/
def executePRWorkflow (args : WorkflowArgs) (genv : GateEnv)
    (inputs : List (String × IterEnv)) : WorkflowOutcome × List ProviderCall :=
  match gatePhase genv with
  | GateResult.cancelled => (WorkflowOutcome.cancelledAtGate, [])
  | GateResult.fatal e => (WorkflowOutcome.fatalError e, [])
  | GateResult.proceed d exPR =>
      let cfg : PrConfig :=
        ⟨args.githubRepo, args.remoteSourceBranch, args.remoteTargetBranch, exPR⟩
      let r := runLoop cfg args.sourceBranch args.targetBranch (initState d) inputs
      (WorkflowOutcome.loopEnd r.1, r.2)

/-- The loop state carried by a step result (terminal steps carry the
state as it was at the prompt). -/
def stepState : StepResult → LoopState
  | StepResult.save s => s
  | StepResult.cancel s => s
  | StepResult.next s => s
  | StepResult.invalid s _ => s

/-- Applying one loop iteration as a state transformer. -/
def applyOp (s : LoopState) (i : String × IterEnv) : LoopState :=
  stepState (loopStep s i.1 i.2)

/-- The trimmed answers accepted by the current menu shape (1-4, plus 5
when hasChanges offers the rollback/cancel pair). -/
def validChoices (hasChanges : Bool) : List String :=
  ["1", "2", "3", "4"] ++ (if hasChanges then ["5"] else [])

/-- Spec-side comment test: the first non-whitespace character of the
line is '#'. -/
def firstNonWsIsHash (line : String) : Bool :=
  match line.data.dropWhile Char.isWhitespace with
  | [] => false
  | c :: _ => c = '#'

/-- Instruction extraction as the spec words it: remove every line whose
first non-whitespace character is '#', then trim the blank padding. -/
def specInstructions (userInput : String) : String :=
  jsTrim (jsJoinLines ((jsSplitLines userInput).filter (fun line => !(firstNonWsIsHash line))))

/-- Concrete fixtures used to instantiate theorems with hypotheses. -/
def draft0 : Draft := ⟨"T1", "D1"⟩

/-- A second concrete draft. -/
def draft1 : Draft := ⟨"New", "New body"⟩

/-- A concrete existing pull request. -/
def pr0 : ExistingPR := ⟨42, "Old", some "Old body", "https://example.com/42", "open"⟩

/-- A concrete iteration environment in which every collaborator fails. -/
def env0 : IterEnv :=
  ⟨none, Except.error "editor fail", "", "", Except.error "editor fail",
   Except.error "gen fail"⟩

/-- Concrete workflow arguments. -/
def args0 : WorkflowArgs := ⟨"feature-x", "main", "owner/repo", none, none⟩

/-- A gate environment with an existing PR and an unrecognized answer. -/
def gateCancelEnv : GateEnv :=
  ⟨some pr0, "x", Except.ok draft0, Except.error "no editor", Except.ok draft1⟩

/-- A gate environment with no existing PR and successful fresh generation. -/
def gateProceedEnv : GateEnv :=
  ⟨none, "", Except.ok draft0, Except.error "no editor", Except.error "gen fail"⟩

/-- A gate environment taking the seeded path with a failing editor. -/
def gateSeededFailEnv : GateEnv :=
  ⟨some pr0, "2", Except.ok draft0, Except.error "No editor configured", Except.ok draft1⟩

lemma editManually_originalResult (s : LoopState) (env : IterEnv) :
    (editManually s env).originalResult = s.originalResult := rfl

lemma editWithEditor_originalResult (s : LoopState) (env : IterEnv) :
    (editWithEditor s env).originalResult = s.originalResult := by
  unfold editWithEditor
  split_ifs
  · cases env.editorResult <;> rfl
  · rfl

lemma regenerateWithInstructions_originalResult (s : LoopState) (env : IterEnv) :
    (regenerateWithInstructions s env).originalResult = s.originalResult := by
  unfold regenerateWithInstructions regenerateWithInstructionsRun
  split <;> rfl

lemma stepState_originalResult (s : LoopState) (raw : String) (env : IterEnv) :
    (stepState (loopStep s raw env)).originalResult = s.originalResult := by
  simp only [loopStep]
  split_ifs <;>
    first
      | rfl
      | exact editWithEditor_originalResult s env
      | exact regenerateWithInstructions_originalResult s env

lemma foldl_applyOp_originalResult (ops : List (String × IterEnv)) :
    ∀ s : LoopState, (ops.foldl applyOp s).originalResult = s.originalResult := by
  induction ops with
  | nil => intro s; rfl
  | cons i rest ih =>
      intro s
      rw [List.foldl_cons, ih (applyOp s i)]
      exact stepState_originalResult s i.1 i.2

/-- C3: after any sequence of loop iterations (in particular any sequence
of successful Edit and Regenerate operations) applied from the state
produced by initial generation, the snapshot is still the initial draft,
and Rollback restores the loop state — title and description included —
to exactly the state produced immediately after initial generation. -/
theorem rollback_restores_original_snapshot (d : Draft)
    (ops : List (String × IterEnv)) :
    (ops.foldl applyOp (initState d)).originalResult = d ∧
    rollbackToOriginal (ops.foldl applyOp (initState d)) = initState d := by
  have horig : (ops.foldl applyOp (initState d)).originalResult = d :=
    foldl_applyOp_originalResult ops (initState d)
  refine ⟨horig, ?_⟩
  unfold rollbackToOriginal initState
  cases hfin : ops.foldl applyOp (initState d)
  rw [hfin] at horig
  simp_all [initState]

/-- C4: hasChanges is false immediately after initial generation and after
Rollback, true after any Edit (editor path and manual fallback both set
it) and after any successful Regenerate; it selects the menu shape:
with changes the menu shows both the rollback and cancel options 4 and 5,
without changes option 4 is cancel and no rollback line is offered. -/
theorem hasChanges_lifecycle_and_menu_gating :
    (∀ d : Draft, (initState d).hasChanges = false) ∧
    (∀ s : LoopState, (rollbackToOriginal s).hasChanges = false) ∧
    (∀ (s : LoopState) (env : IterEnv), (editWithEditor s env).hasChanges = true) ∧
    (∀ (s : LoopState) (env : IterEnv), (editManually s env).hasChanges = true) ∧
    (∀ (s : LoopState) (env : IterEnv) (buf : String) (d : Draft),
      (regenerateWithInstructions s
        { env with regenEditor := Except.ok buf, regenGen := Except.ok d }).hasChanges
        = true) ∧
    (menuOptionLines true).contains "4. ↩️  Rollback to original version" = true ∧
    (menuOptionLines true).contains "5. ❌ Cancel (exit without saving)" = true ∧
    (menuOptionLines false).contains "4. ❌ Cancel (exit without saving)" = true ∧
    (menuOptionLines false).contains "4. ↩️  Rollback to original version" = false ∧
    (menuOptionLines false).length = 4 ∧ (menuOptionLines true).length = 5 := by
  refine ⟨fun d => rfl, fun s => rfl, ?_, fun s env => rfl, fun s env buf d => rfl,
    by decide, by decide, by decide, by decide, by decide, by decide⟩
  intro s env
  unfold editWithEditor
  split_ifs
  · cases env.editorResult <;> rfl
  · rfl

/-- C9: when Regenerate-with-instructions fails — the editor call throwing
or the generation call throwing — the loop state (draft and hasChanges)
is returned exactly as it was, the failure branch logs the error and the
continue message, and the loop proceeds to the next prompt. -/
theorem regenerate_failure_preserves_state (s : LoopState) (env : IterEnv)
    (e : String) :
    regenerateWithInstructionsRun s { env with regenEditor := Except.error e } =
      (s, ["❌ Failed to regenerate: " ++ e, "💡 Continuing with current content..."]) ∧
    (regenerateWithInstructionsRun s { env with regenGen := Except.error e }).1 = s ∧
    loopStep s "3" { env with regenEditor := Except.error e } = StepResult.next s ∧
    loopStep s "3" { env with regenGen := Except.error e } = StepResult.next s := by
  obtain ⟨ec, er, mt, md, re, rg⟩ := env
  refine ⟨rfl, ?_, rfl, ?_⟩ <;> cases re <;> rfl

/-- C10: in the manual-entry fallback an empty title answer keeps the
current title and an empty description answer keeps the current
description (JavaScript `answer || current`); hasChanges is set to true
unconditionally — even when both answers are empty and the draft is
textually unchanged — so the menu switches to the shape that offers
rollback. -/
theorem manual_edit_empty_answers_preserve_fields (s : LoopState) (env : IterEnv) :
    editManually s { env with manualTitle := "", manualDescription := "" } =
      { s with hasChanges := true } ∧
    (editManually s { env with manualTitle := "" }).currentResult.title
      = s.currentResult.title ∧
    (editManually s { env with manualDescription := "" }).currentResult.description
      = s.currentResult.description ∧
    (editManually s env).currentResult.title
      = (if env.manualTitle = "" then s.currentResult.title else env.manualTitle) ∧
    (editManually s env).currentResult.description
      = (if env.manualDescription = "" then s.currentResult.description
         else env.manualDescription) ∧
    (editManually s env).hasChanges = true ∧
    menuOptionLines (editManually s env).hasChanges = menuOptionLines true :=
  ⟨rfl, rfl, rfl, rfl, rfl, rfl, rfl⟩

/-- C7: any trimmed answer outside the current menu's valid range leaves
the loop state untouched and yields the re-prompt branch whose error text
names the current menu's numeric range (1-4 without changes, 1-5 with
changes); it is never a save, cancel or state transition. -/
theorem reviewing_invalid_input_reprompts (s : LoopState) (raw : String)
    (env : IterEnv) (h : jsTrim raw ∉ validChoices s.hasChanges) :
    loopStep s raw env = StepResult.invalid s (invalidOptionMessage s.hasChanges) := by
  cases hc : s.hasChanges with
  | false =>
      simp [validChoices, hc, not_or] at h
      obtain ⟨h1, h2, h3, h4⟩ := h
      simp only [loopStep]
      rw [if_neg h1, if_neg h2, if_neg h3, if_neg h4]
      by_cases h5 : jsTrim raw = "5"
      · rw [if_pos h5, hc]
        rfl
      · rw [if_neg h5, hc]
  | true =>
      simp [validChoices, hc, not_or] at h
      obtain ⟨h1, h2, h3, h4, h5⟩ := h
      simp only [loopStep]
      rw [if_neg h1, if_neg h2, if_neg h3, if_neg h4, if_neg h5, hc]

/-- Witness for C7 at the concrete state after initial generation and the
raw answer "9". -/
theorem reviewing_invalid_input_reprompts_witness :
    loopStep (initState draft0) "9" env0 =
      StepResult.invalid (initState draft0)
        (invalidOptionMessage (initState draft0).hasChanges) :=
  reviewing_invalid_input_reprompts (initState draft0) "9" env0 (by decide)

/-- C5: finalization dispatches on the existing request — non-null updates
by the request's number (and never takes the create branch), null creates
by the branch pair — and the success message ends in the remote URL
returned by the provider. -/
theorem createOrUpdate_dispatches_on_existing :
    (∀ (args : SaveRequestArgs) (pr : ExistingPR), args.existingPR = some pr →
      createOrUpdatePullRequest args =
        ProviderCall.patch
          ("https://api.github.com/repos/" ++ args.githubRepo ++ "/pulls/"
            ++ toString pr.number) args.title args.description) ∧
    (∀ args : SaveRequestArgs, args.existingPR = none →
      createOrUpdatePullRequest args =
        ProviderCall.post ("https://api.github.com/repos/" ++ args.githubRepo ++ "/pulls")
          args.sourceBranch args.targetBranch args.title args.description) ∧
    (∀ (args : SaveRequestArgs) (pr : ExistingPR), args.existingPR = some pr →
      ∀ u hd b t d, createOrUpdatePullRequest args ≠ ProviderCall.post u hd b t d) ∧
    (∀ (pr : ExistingPR) (url : String),
      saveSuccessMessage (some pr) url = "✅ Pull request updated: " ++ url) ∧
    (∀ url : String, saveSuccessMessage none url = "✅ Pull request created: " ++ url) := by
  refine ⟨?_, ?_, ?_, fun pr url => rfl, fun url => rfl⟩
  · intro args pr h
    unfold createOrUpdatePullRequest
    rw [h]
  · intro args h
    unfold createOrUpdatePullRequest
    rw [h]
  · intro args pr h u hd b t d
    unfold createOrUpdatePullRequest
    rw [h]
    simp

/-- Witness for C5 at a concrete update run against pr0. -/
theorem createOrUpdate_dispatches_on_existing_witness :
    createOrUpdatePullRequest ⟨"owner/repo", "feat", "main", "T1", "D1", some pr0⟩ =
      ProviderCall.patch
        ("https://api.github.com/repos/" ++ "owner/repo" ++ "/pulls/" ++ toString pr0.number)
        "T1" "D1" :=
  createOrUpdate_dispatches_on_existing.1
    ⟨"owner/repo", "feat", "main", "T1", "D1", some pr0⟩ pr0 rfl

/-- Counterexample to C6: the raw gate answer "x" is not one of the three
menu choices, yet the gate maps it to the cancel decision and the whole
run is cancelled — the engine silently defaults to cancel instead of
re-prompting. -/
theorem gate_invalid_input_defaults_to_cancel_cex :
    jsTrim "x" ∉ (["1", "2", "3"] : List String) ∧
    gateDecision "x" = GateDecision.cancel ∧
    gatePhase gateCancelEnv = GateResult.cancelled := by
  refine ⟨by decide, by decide, by decide⟩

/-- C6 as amended: at the existing-request gate, every raw answer whose
trimmed form is neither "1" nor "2" — "3" and any unrecognized input
alike — takes the cancel branch: the run terminates cancelled with no
re-prompting. -/
theorem gate_non_12_input_cancels (raw : String) (pr : ExistingPR)
    (fresh : Except String Draft) (re : Except String String)
    (rg : Except String Draft)
    (h1 : jsTrim raw ≠ "1") (h2 : jsTrim raw ≠ "2") :
    gateDecision raw = GateDecision.cancel ∧
    gatePhase ⟨some pr, raw, fresh, re, rg⟩ = GateResult.cancelled := by
  have hd : gateDecision raw = GateDecision.cancel := by
    simp only [gateDecision]
    rw [if_neg h1, if_neg h2]
  refine ⟨hd, ?_⟩
  simp only [gatePhase]
  rw [hd]

/-- Witness for the amended C6 at the concrete raw answer "x". -/
theorem gate_non_12_input_cancels_witness :
    gateDecision "x" = GateDecision.cancel ∧
    gatePhase ⟨some pr0, "x", Except.ok draft0, Except.error "no editor",
      Except.ok draft1⟩ = GateResult.cancelled :=
  gate_non_12_input_cancels "x" pr0 (Except.ok draft0) (Except.error "no editor")
    (Except.ok draft1) (by decide) (by decide)

/-- C2 is a code bug: with an existing PR, gate choice "2" and a failing
editor, the catch logs the fallback message but assigns nothing, so
`result` stays undefined, printing `result.title` throws, and the run
exits fatally — it never produces a fresh draft and never reaches the
interactive loop, even though fresh generation would have succeeded
(freshGen is ok here and is never consulted). -/
theorem gate_seeded_failure_aborts_run :
    gatePhase gateSeededFailEnv =
      GateResult.fatal "Cannot read properties of undefined (reading 'title')" ∧
    (∀ inputs : List (String × IterEnv),
      executePRWorkflow args0 gateSeededFailEnv inputs =
        (WorkflowOutcome.fatalError "Cannot read properties of undefined (reading 'title')",
         [])) ∧
    gateSeededFailEnv.freshGen = Except.ok draft0 := by
  exact ⟨by decide, fun inputs => rfl, rfl⟩

lemma dropWhile_head_not (p : Char → Bool) :
    ∀ (l : List Char) (c : Char) (rest : List Char),
      l.dropWhile p = c :: rest → p c = false := by
  intro l
  induction l with
  | nil => intro c rest h; simp [List.dropWhile] at h
  | cons a l ih =>
      intro c rest h
      rw [List.dropWhile_cons] at h
      by_cases hp : p a = true
      · rw [if_pos hp] at h
        exact ih c rest h
      · rw [if_neg hp] at h
        injection h with h1 h2
        subst h1
        exact Bool.not_eq_true _ |>.mp hp

lemma jsTrim_startsWithHash (line : String) :
    jsStartsWith (jsTrim line) "#" = firstNonWsIsHash line := by
  unfold jsStartsWith jsTrim jsTrimList firstNonWsIsHash
  cases ht : line.data.dropWhile Char.isWhitespace with
  | nil => rfl
  | cons c rest =>
      have hc : Char.isWhitespace c = false := dropWhile_head_not _ _ _ _ ht
      have hu : (c :: rest).reverse.dropWhile Char.isWhitespace ≠ [] := by
        intro hnil
        rw [List.dropWhile_eq_nil_iff] at hnil
        have hcw := hnil c (by simp)
        rw [hc] at hcw
        exact Bool.noConfusion hcw
      have hsuf : (c :: rest).reverse.dropWhile Char.isWhitespace <:+ (c :: rest).reverse :=
        List.dropWhile_suffix _
      have hpre : ((c :: rest).reverse.dropWhile Char.isWhitespace).reverse <+: (c :: rest) := by
        have hrp := List.reverse_prefix.mpr hsuf
        simpa using hrp
      obtain ⟨w, hw⟩ := hpre
      show List.isPrefixOf ['#']
          (((c :: rest).reverse.dropWhile Char.isWhitespace).reverse) = decide (c = '#')
      cases hurv : ((c :: rest).reverse.dropWhile Char.isWhitespace).reverse with
      | nil =>
          exact absurd (by simpa using hurv) hu
      | cons c' v =>
          rw [hurv] at hw
          injection hw with h1 h2
          subst h1
          by_cases hch : c' = '#'
          · subst hch; simp [List.isPrefixOf]
          · simp only [List.isPrefixOf, Bool.and_true]
            rw [beq_eq_false_iff_ne.mpr (Ne.symm hch), decide_eq_false hch]

lemma filterInstructions_eq_spec (buf : String) :
    filterInstructions buf = specInstructions buf := by
  unfold filterInstructions specInstructions
  have hfil : (jsSplitLines buf).filter (fun line => !(jsStartsWith (jsTrim line) "#"))
      = (jsSplitLines buf).filter (fun line => !(firstNonWsIsHash line)) := by
    apply List.filter_congr
    intro line _
    rw [jsTrim_startsWithHash]
  rw [hfil]

/-- C8: on the seeded path the generator is always invoked with the
comment-filtered editor buffer as additionalInstructions; that filter
agrees with the spec wording (drop every line whose first non-whitespace
character is '#', trim the blank padding); and on the buffer
"# comment\nFocus on perf\n" the instructions are exactly "Focus on perf". -/
theorem seeded_instructions_strip_comments :
    (∀ (prev : Draft) (buf : String) (g : Except String Draft),
      (regenerateMergeRequest prev (Except.ok buf) g).2
        = some ⟨filterInstructions buf, prev⟩) ∧
    (∀ buf : String, filterInstructions buf = specInstructions buf) ∧
    filterInstructions "# comment\nFocus on perf\n" = "Focus on perf" := by
  refine ⟨?_, filterInstructions_eq_spec, by decide⟩
  intro prev buf g
  cases g <;> rfl

lemma runLoop_calls_spec (cfg : PrConfig) (src tgt : String) :
    ∀ (inputs : List (String × IterEnv)) (s : LoopState),
      ((runLoop cfg src tgt s inputs).2.length ≤ 1) ∧
      ((runLoop cfg src tgt s inputs).1 = LoopOutcome.cancelled →
        (runLoop cfg src tgt s inputs).2 = []) ∧
      (∀ s', (runLoop cfg src tgt s inputs).1 = LoopOutcome.outOfInput s' →
        (runLoop cfg src tgt s inputs).2 = []) ∧
      (∀ c ∈ (runLoop cfg src tgt s inputs).2, ∃ d,
        (runLoop cfg src tgt s inputs).1 = LoopOutcome.saved d ∧
        c = createOrUpdatePullRequest (mkSaveArgs cfg src tgt d)) := by
  intro inputs
  induction inputs with
  | nil =>
      intro s
      exact ⟨by simp [runLoop], by simp [runLoop], fun s' _ => rfl, by simp [runLoop]⟩
  | cons i rest ih =>
      intro s
      obtain ⟨raw, env⟩ := i
      cases hstep : loopStep s raw env with
      | save s' => simp [runLoop, hstep]
      | cancel s' => simp [runLoop, hstep]
      | next s' => simpa [runLoop, hstep] using ih s'
      | invalid s' msg => simpa [runLoop, hstep] using ih s'

/-- C1: over any run — any gate environment and any sequence of loop
answers — the list of provider mutations has length at most one; a run
cancelled at the gate, a run cancelled in the loop, a fatal run and a run
that never terminates all issue zero mutations; and any mutation that is
issued belongs to a run that ended in the terminal Save outcome. -/
theorem workflow_provider_mutation_at_most_once (args : WorkflowArgs)
    (genv : GateEnv) (inputs : List (String × IterEnv)) :
    ((executePRWorkflow args genv inputs).2.length ≤ 1) ∧
    ((executePRWorkflow args genv inputs).1 = WorkflowOutcome.cancelledAtGate →
      (executePRWorkflow args genv inputs).2 = []) ∧
    ((executePRWorkflow args genv inputs).1 = WorkflowOutcome.loopEnd LoopOutcome.cancelled →
      (executePRWorkflow args genv inputs).2 = []) ∧
    (∀ e, (executePRWorkflow args genv inputs).1 = WorkflowOutcome.fatalError e →
      (executePRWorkflow args genv inputs).2 = []) ∧
    (∀ s', (executePRWorkflow args genv inputs).1
        = WorkflowOutcome.loopEnd (LoopOutcome.outOfInput s') →
      (executePRWorkflow args genv inputs).2 = []) ∧
    (∀ c ∈ (executePRWorkflow args genv inputs).2, ∃ d,
      (executePRWorkflow args genv inputs).1
        = WorkflowOutcome.loopEnd (LoopOutcome.saved d)) := by
  simp only [executePRWorkflow]
  cases hg : gatePhase genv with
  | cancelled => simp
  | fatal e => simp
  | proceed d exPR =>
      obtain ⟨hlen, hcan, hout, hmem⟩ := runLoop_calls_spec
        ⟨args.githubRepo, args.remoteSourceBranch, args.remoteTargetBranch, exPR⟩
        args.sourceBranch args.targetBranch inputs (initState d)
      refine ⟨hlen, by simp, ?_, by simp, ?_, ?_⟩
      · intro hl
        exact hcan (by simpa using hl)
      · intro s' hl
        exact hout s' (by simpa using hl)
      · intro c hcmem
        obtain ⟨d', hd', _⟩ := hmem c (by simpa using hcmem)
        exact ⟨d', by simp [hd']⟩

/-- Witness for C1: a run cancelled at the gate and a run cancelled in the
loop (choice "4" with no changes) both issue zero provider mutations. -/
theorem workflow_provider_mutation_at_most_once_witness :
    (executePRWorkflow args0 gateCancelEnv []).2 = [] ∧
    (executePRWorkflow args0 gateProceedEnv [("4", env0)]).2 = [] :=
  ⟨(workflow_provider_mutation_at_most_once args0 gateCancelEnv []).2.1 (by decide),
   (workflow_provider_mutation_at_most_once args0 gateProceedEnv
      [("4", env0)]).2.2.1 (by decide)⟩

end GenMr
